import Mathlib

/-!
Verification of the WebP image plugin (WebPImagePlugin.py): a shallow
embedding of the container prober, the frame-cursor state machine of
`WebPImageFile`, and the animation assembler `_save_all`, together with
theorems settling the specification claims.

Bytes are modelled as `Nat` (each < 256 where it matters), Python byte
strings as `List Nat`, Python ints as `Int` where subtraction or sign
matters, and exceptions as an explicit error type threaded through
state-passing functions.
-/

namespace WebPPlugin

/-- Python exception kinds raised by the plugin code. -/
inductive PyError where
  | eofError (msg : String)
  | ioError (msg : String)
  | nameError (msg : String)
  | valueError (msg : String)
  | indexError (msg : String)
  deriving Repr, DecidableEq

deriving instance DecidableEq for Except

/-! ## Container prober (`_accept`, lines 17-22) -/

/-- The module-level dict `_VP8_MODES_BY_IDENTIFIER`: keys are the 4-byte
sub-format identifiers `b"VP8 "`, `b"VP8X"`, `b"VP8L"`. -/
def _VP8_MODES_BY_IDENTIFIER : List (List Nat × String) :=
  [([0x56, 0x50, 0x38, 0x20], "RGB"),
   ([0x56, 0x50, 0x38, 0x58], "RGBA"),
   ([0x56, 0x50, 0x38, 0x4C], "RGBA")]

/-- Python byte-string slicing `bs[lo:hi]`: total, clamps to the available
length, never raises. -/
def pySlice (bs : List Nat) (lo hi : Nat) : List Nat :=
  (bs.drop lo).take (hi - lo)

/-- `_accept(prefix)` from the source: RIFF magic at 0..4, WEBP magic at
8..12, and bytes 12..16 a key of `_VP8_MODES_BY_IDENTIFIER`. -/
def _accept (pfx : List Nat) : Bool :=
  let is_riff_file_format := pySlice pfx 0 4 == [0x52, 0x49, 0x46, 0x46]
  let is_webp_file := pySlice pfx 8 12 == [0x57, 0x45, 0x42, 0x50]
  let is_valid_vp8_mode :=
    (_VP8_MODES_BY_IDENTIFIER.map Prod.fst).contains (pySlice pfx 12 16)
  is_riff_file_format && is_webp_file && is_valid_vp8_mode

/-! ## Packed background color (decode `_open` lines 47-52, encode
`_save_all` lines 187-188) -/

/-- Decomposition of the packed 32-bit background from `_open`:
bits 24-31 alpha, 16-23 red, 8-15 green, 0-7 blue, exposed as the
`info["background"]` tuple `(bg_r, bg_g, bg_b, bg_a)`. -/
def decodeBackground (bgcolor : Nat) : Nat × Nat × Nat × Nat :=
  let bg_a := (bgcolor >>> 24) &&& 0xFF
  let bg_r := (bgcolor >>> 16) &&& 0xFF
  let bg_g := (bgcolor >>> 8) &&& 0xFF
  let bg_b := bgcolor &&& 0xFF
  (bg_r, bg_g, bg_b, bg_a)

/-- Packing of an `(r, g, b, a)` background tuple from `_save_all`:
`(bg_a << 24) | (bg_r << 16) | (bg_g << 8) | (bg_b << 0)`. -/
def packBackground (background : Nat × Nat × Nat × Nat) : Nat :=
  let (bg_r, bg_g, bg_b, bg_a) := background
  (bg_a <<< 24) ||| (bg_r <<< 16) ||| (bg_g <<< 8) ||| (bg_b <<< 0)

/-! ## Frame cursor (decode path, `WebPImageFile`, lines 88-152)

The underlying `_webp.WebPAnimDecoder` is modelled as an abstract frame
stream: advancing at position `p` yields `stream[p]` (pixel bytes plus the
cumulative end-timestamp reported by libwebp) or a decode failure, either
because the entry is an injected failure (`none`) or because the stream is
exhausted.  The decoder records how many `get_next` and `reset` calls it
has received, so seek-cost claims can be stated as counter values. -/

structure Decoder where
  stream : List (Option (List Nat × Int))
  pos : Nat
  advances : Nat
  resets : Nat
  deriving Repr, DecidableEq

/-- `self._decoder.get_next()`: returns the next frame (or `None`) and
advances the internal position. -/
def Decoder.get_next (d : Decoder) : Option (List Nat × Int) × Decoder :=
  ((d.stream[d.pos]?).join,
   { d with pos := d.pos + 1, advances := d.advances + 1 })

/-- `self._decoder.reset()`: rewinds the decoder to physical frame 0. -/
def Decoder.reset (d : Decoder) : Decoder :=
  { d with pos := 0, resets := d.resets + 1 }

/-- The mutable state of a `WebPImageFile`: the owned decoder plus the
name-mangled cursor fields `__logical_frame`, `__physical_frame`,
`__loaded` (`-1` = none), `__timestamp` (cumulative end-time), the
`info["timestamp"]` / `info["duration"]` entries and the `fp` byte buffer
exposed for the currently loaded frame. -/
structure WebPImageFile where
  decoder : Decoder
  n_frames : Nat
  logical_frame : Int
  physical_frame : Int
  loaded : Int
  timestamp : Int
  info_timestamp : Int
  info_duration : Int
  fp : List Nat
  deriving Repr, DecidableEq

/-- `WebPImageFile.seek` (lines 88-96): bounds-check, then record the
requested logical frame; never touches the decoder. -/
def WebPImageFile.seek (s : WebPImageFile) (frame : Int) :
    Except PyError Unit × WebPImageFile :=
  if frame ≥ (s.n_frames : Int) then
    (.error (.eofError "attempted to seek beyond end of sequence"), s)
  else if frame < 0 then
    (.error (.eofError "negative frame index is not valid"), s)
  else
    (.ok (), { s with logical_frame := frame })

/-- `WebPImageFile._reset` (lines 98-103). -/
def WebPImageFile._reset (s : WebPImageFile) (reset : Bool) : WebPImageFile :=
  let s := if reset then { s with decoder := s.decoder.reset } else s
  { s with physical_frame := 0, loaded := -1, timestamp := 0 }

/-- `WebPImageFile._get_next` (lines 105-121): advance the decoder once;
on failure reset, seek to 0 and raise `EOFError`; on success derive the
frame duration from the cumulative end-timestamps and return
`(data, start_time, duration)`. -/
def WebPImageFile._get_next (s : WebPImageFile) :
    Except PyError (List Nat × Int × Int) × WebPImageFile :=
  let (ret, d) := s.decoder.get_next
  let s := { s with decoder := d, physical_frame := s.physical_frame + 1 }
  match ret with
  | none =>
      let s := s._reset true
      match s.seek 0 with
      | (.error e, s) => (.error e, s)
      | (.ok _, s) =>
          (.error (.eofError "failed to decode next frame in WebP file"), s)
  | some (data, ts) =>
      let duration := ts - s.timestamp
      let s := { s with timestamp := ts }
      (.ok (data, ts - duration, duration), s)

/-- The `while self.__physical_frame < frame: self._get_next()` loop of
`_seek`, with explicit fuel; each successful advance raises
`physical_frame` by exactly one, so the caller passes fuel
`(frame - physical_frame).toNat` and the loop behaves as the source's
while loop. -/
def WebPImageFile.seekLoop (frame : Int) :
    Nat → WebPImageFile → Except PyError Unit × WebPImageFile
  | 0, s => (.ok (), s)
  | fuel + 1, s =>
    if s.physical_frame < frame then
      match s._get_next with
      | (.ok _, s) => WebPImageFile.seekLoop frame fuel s
      | (.error e, s) => (.error e, s)
    else (.ok (), s)

/-- `WebPImageFile._seek` (lines 123-133): no-op when already positioned,
full rewind when seeking backward, then advance one frame at a time. -/
def WebPImageFile._seek (s : WebPImageFile) (frame : Int) :
    Except PyError Unit × WebPImageFile :=
  if s.physical_frame = frame then (.ok (), s)
  else
    let s := if frame < s.physical_frame then s._reset true else s
    WebPImageFile.seekLoop frame (frame - s.physical_frame).toNat s

/-- `WebPImageFile.load` (lines 135-149): when the logical frame is not the
loaded one, reconcile the physical position, decode it, record timing in
`info` and the pixel bytes in `fp`; the host's `load` then exposes the
bytes.  The observable result is `(pixel bytes, start_time, duration)`. -/
def WebPImageFile.load (s : WebPImageFile) :
    Except PyError (List Nat × Int × Int) × WebPImageFile :=
  if s.loaded ≠ s.logical_frame then
    match s._seek s.logical_frame with
    | (.error e, s) => (.error e, s)
    | (.ok _, s) =>
      match s._get_next with
      | (.error e, s) => (.error e, s)
      | (.ok (data, ts, dur), s) =>
        let s := { s with info_timestamp := ts, info_duration := dur,
                          loaded := s.logical_frame, fp := data }
        (.ok (data, ts, dur), s)
  else
    (.ok (s.fp, s.info_timestamp, s.info_duration), s)

/-- `WebPImageFile.tell` (lines 151-152). -/
def WebPImageFile.tell (s : WebPImageFile) : Int :=
  s.logical_frame

/-- Cursor state right after `_open` (lines 68-70): `_reset(reset=False)`
then `seek(0)`, with fresh decoder counters. -/
def openCursor (stream : List (Option (List Nat × Int))) (n_frames : Nat) :
    WebPImageFile :=
  { decoder := { stream := stream, pos := 0, advances := 0, resets := 0 },
    n_frames := n_frames, logical_frame := 0, physical_frame := 0,
    loaded := -1, timestamp := 0, info_timestamp := 0, info_duration := 0,
    fp := [] }

/-- The caller-side `seek(k); load()` sequence used by hosts. -/
def seekLoad (s : WebPImageFile) (k : Int) :
    Except PyError (List Nat × Int × Int) × WebPImageFile :=
  match s.seek k with
  | (.ok _, s) => s.load
  | (.error e, s) => (.error e, s)

/-- A 3-frame demo decoder stream with cumulative end-timestamps
`[10, 25, 40]`. -/
def demoStream : List (Option (List Nat × Int)) :=
  [some ([0], 10), some ([1], 25), some ([2], 40)]

/-- In-order access on the demo container: load frames 0, 1, 2. -/
def inorder0 : Except PyError (List Nat × Int × Int) × WebPImageFile :=
  seekLoad (openCursor demoStream 3) 0

def inorder1 : Except PyError (List Nat × Int × Int) × WebPImageFile :=
  seekLoad inorder0.2 1

def inorder2 : Except PyError (List Nat × Int × Int) × WebPImageFile :=
  seekLoad inorder1.2 2

/-- Backward access on the demo container: load frame 2, then frame 0. -/
def backward2 : Except PyError (List Nat × Int × Int) × WebPImageFile :=
  seekLoad (openCursor demoStream 3) 2

def backward0 : Except PyError (List Nat × Int × Int) × WebPImageFile :=
  seekLoad backward2.2 0

/-! ## Animation assembler (`_save_all`, lines 154-253)

Source images are duck-typed by the assembler: anything with an optional
`n_frames` attribute, `seek`/`load`, a pixel `mode`, a palette mode and
`tobytes`/`size`.  They are modelled by one capability record; loading
frame `i` yields `frames[i]` (or a load failure when the entry is `none`).
The animation encoder is modelled by the list of `add` calls it receives;
its black-box `assemble` output is a parameter of `_save_all`. -/

/-- `_VALID_WEBP_MODES` (lines 5-8). -/
def _VALID_WEBP_MODES : List String := ["RGB", "RGBA"]

structure SrcImage where
  hasNFramesAttr : Bool
  nFrames : Nat
  frames : List (Option (List Nat))
  mode : String
  palettemode : Option String
  width : Nat
  height : Nat
  cursor : Int
  deriving Repr, DecidableEq

/-- The frame count the assembler uses (lines 208-211): `n_frames` when
the attribute exists, else 1. -/
def SrcImage.nfr (ims : SrcImage) : Nat :=
  if ims.hasNFramesAttr then ims.nFrames else 1

/-- `ims.tell()`. -/
def SrcImage.tell (ims : SrcImage) : Int :=
  ims.cursor

/-- `ims.seek(frame)`: bounds-checked cursor move. -/
def SrcImage.seek (ims : SrcImage) (frame : Int) :
    Except PyError Unit × SrcImage :=
  if frame ≥ (ims.nfr : Int) then
    (.error (.eofError "attempted to seek beyond end of sequence"), ims)
  else if frame < 0 then
    (.error (.eofError "negative frame index is not valid"), ims)
  else
    (.ok (), { ims with cursor := frame })

/-- `ims.load()`: materialize the pixel bytes of the frame at the cursor;
a `none` entry is a load failure. -/
def SrcImage.load (ims : SrcImage) : Except PyError (List Nat) × SrcImage :=
  (match ims.frames[ims.cursor.toNat]? with
   | some (some data) => .ok data
   | _ => .error (.eofError "failed to load frame"), ims)

/-- Lines 217-221: mode normalization.  A frame whose mode is already a
valid WebP mode is used as is.  Otherwise the source computes
`alpha = 'A' in ims.im.getpalettemode()` (a `ValueError` when the image
has no palette) and then evaluates `image.convert(...)` — but `image` is
an unbound name in `_save_all` (the module only defines `Image`), so this
branch raises `NameError` instead of converting. -/
def normalizeFrame (ims : SrcImage) : Except PyError SrcImage :=
  if _VALID_WEBP_MODES.contains ims.mode then .ok ims
  else
    match ims.palettemode with
    | none => .error (.valueError "image has no palette")
    | some _ => .error (.nameError "name image is not defined")

/-- One `enc.add(...)` call received by the `WebPAnimEncoder`
(lines 224-232 and 242-246): payload bytes (`none` for the terminating
sentinel), timestamp, frame size, mode and the encode options. -/
structure EncCall where
  payload : Option (List Nat)
  timestamp : Int
  width : Nat
  height : Nat
  mode : String
  lossless : Bool
  quality : Int
  method : Int
  deriving Repr, DecidableEq

/-- The `duration` option: a scalar, or a per-frame-index sequence
(line 235; an out-of-range index raises `IndexError`). -/
inductive DurationOpt where
  | scalar (d : Int)
  | seq (ds : List Int)
  deriving Repr, DecidableEq

def DurationOpt.lookup (dur : DurationOpt) (frame_idx : Nat) :
    Except PyError Int :=
  match dur with
  | .scalar d => .ok d
  | .seq ds =>
    match ds[frame_idx]? with
    | some d => .ok d
    | none => .error (.indexError "list index out of range")

/-- The `background` option: an RGBA channel list/tuple, or any other
Python value (which fails the `isinstance` check). -/
inductive BackgroundOpt where
  | rgba (vs : List Int)
  | notATuple
  deriving Repr, DecidableEq

/-- Lines 183-188: validate the background option and pack it into a
32-bit value.  (The Python message interpolates `str(background)`; the
model keeps the fixed prefix of the message.) -/
def validateBackground (bg : BackgroundOpt) : Except PyError Nat :=
  match bg with
  | .notATuple =>
    .error (.ioError "Background color is not an RGBA tuple clamped to (0-255)")
  | .rgba vs =>
    if vs.length != 4 || !(vs.all fun v => decide (v ≥ 0) && decide (v < 256)) then
      .error (.ioError "Background color is not an RGBA tuple clamped to (0-255)")
    else
      match vs with
      | [bg_r, bg_g, bg_b, bg_a] =>
        .ok (packBackground (bg_r.toNat, bg_g.toNat, bg_b.toNat, bg_a.toNat))
      | _ =>
        .error (.ioError "Background color is not an RGBA tuple clamped to (0-255)")

/-- The `WebPAnimEncoder` session parameters (lines 191-199). -/
structure Encoder where
  width : Nat
  height : Nat
  background : Nat
  loop : Int
  minimize_size : Bool
  kmin : Int
  kmax : Int
  allow_mixed : Bool
  verbose : Bool
  deriving Repr, DecidableEq

/-- The recognized `encoderinfo` options with their defaults
(lines 159-173). -/
structure EncoderInfo where
  append_images : List SrcImage := []
  background : BackgroundOpt := .rgba [0, 0, 0, 0]
  duration : DurationOpt := .scalar 0
  loop : Int := 0
  minimize_size : Bool := false
  kmin : Option Int := none
  kmax : Option Int := none
  allow_mixed : Bool := false
  lossless : Bool := false
  quality : Int := 80
  method : Int := 0
  icc_profile : List Nat := []
  exif : List Nat := []
  deriving Repr, DecidableEq

/-- The inner `for idx in range(nfr)` loop of `_save_all`
(lines 213-236): seek, load, normalize, append to the encoder, advance
the running timestamp and frame index.  Returns the loop outcome, the
mutated source image, and the updated
`(frame_idx, timestamp, encoder calls)`. -/
def addFramesLoop (dur : DurationOpt) (lossless : Bool) (quality method : Int) :
    List Nat → SrcImage → Nat → Int → List EncCall →
      Except PyError Unit × SrcImage × Nat × Int × List EncCall
  | [], ims, frame_idx, timestamp, calls =>
    (.ok (), ims, frame_idx, timestamp, calls)
  | idx :: rest, ims, frame_idx, timestamp, calls =>
    match ims.seek idx with
    | (.error e, ims) => (.error e, ims, frame_idx, timestamp, calls)
    | (.ok _, ims) =>
      match ims.load with
      | (.error e, ims) => (.error e, ims, frame_idx, timestamp, calls)
      | (.ok data, ims) =>
        match normalizeFrame ims with
        | .error e => (.error e, ims, frame_idx, timestamp, calls)
        | .ok frame =>
          let calls := calls ++
            [{ payload := some data, timestamp := timestamp,
               width := frame.width, height := frame.height,
               mode := frame.mode, lossless := lossless,
               quality := quality, method := method }]
          match dur.lookup frame_idx with
          | .error e => (.error e, ims, frame_idx, timestamp, calls)
          | .ok d =>
            addFramesLoop dur lossless quality method rest ims
              (frame_idx + 1) (timestamp + d) calls

/-- One source image's frames (`for idx in range(nfr)`). -/
def addFrames (dur : DurationOpt) (lossless : Bool) (quality method : Int)
    (ims : SrcImage) (frame_idx : Nat) (timestamp : Int)
    (calls : List EncCall) :
    Except PyError Unit × SrcImage × Nat × Int × List EncCall :=
  addFramesLoop dur lossless quality method (List.range ims.nfr) ims
    frame_idx timestamp calls

/-- The remaining `append_images` sources (their final states are not
observable to the caller). -/
def addFramesList (dur : DurationOpt) (lossless : Bool) (quality method : Int) :
    List SrcImage → Nat → Int → List EncCall →
      Except PyError Unit × Nat × Int × List EncCall
  | [], frame_idx, timestamp, calls => (.ok (), frame_idx, timestamp, calls)
  | ims :: rest, frame_idx, timestamp, calls =>
    match addFrames dur lossless quality method ims frame_idx timestamp calls with
    | (.error e, _, frame_idx, timestamp, calls) =>
      (.error e, frame_idx, timestamp, calls)
    | (.ok _, _, frame_idx, timestamp, calls) =>
      addFramesList dur lossless quality method rest frame_idx timestamp calls

/-- The observable outcome of one `_save_all` call: the bytes written to
`fp` (or the raised exception), the primary image's state on return, the
encoder session if one was constructed, and every `enc.add` call issued. -/
structure SaveAllResult where
  result : Except PyError (List Nat)
  im : SrcImage
  enc : Option Encoder
  calls : List EncCall
  deriving Repr, DecidableEq

/-- The validity condition the source's background check enforces
(lines 184-185): a list/tuple of exactly 4 channel values, each
`0 <= v < 256`. -/
def validBackground : BackgroundOpt → Prop
  | .notATuple => False
  | .rgba vs => vs.length = 4 ∧ ∀ v ∈ vs, 0 ≤ v ∧ v < 256

/-- The `try`/`finally` frame loop, cursor restoration, flush sentinel and
assembly of `_save_all` (lines 202-253), with the already-extracted
options as parameters.  `assembleOutput` stands for the black-box
`enc.assemble(icc_profile, exif)` result (`none` = encoder returned
`None`). -/
def assembleAnimation (dur : DurationOpt) (lossless : Bool)
    (quality method : Int) (append_images : List SrcImage) (enc : Encoder)
    (assembleOutput : Option (List Nat)) (im : SrcImage) : SaveAllResult :=
  let cur_idx := im.tell
  match addFrames dur lossless quality method im 0 0 [] with
  | (.error e, im, _, _, calls) =>
    let (rs, im) := im.seek cur_idx
    (match rs with
     | .error e2 => { result := .error e2, im := im, enc := some enc, calls := calls }
     | .ok _ => { result := .error e, im := im, enc := some enc, calls := calls })
  | (.ok _, im, frame_idx, timestamp, calls) =>
    match addFramesList dur lossless quality method
        append_images frame_idx timestamp calls with
    | (.error e, _, _, calls) =>
      let (rs, im) := im.seek cur_idx
      (match rs with
       | .error e2 => { result := .error e2, im := im, enc := some enc, calls := calls }
       | .ok _ => { result := .error e, im := im, enc := some enc, calls := calls })
    | (.ok _, _, timestamp, calls) =>
      match im.seek cur_idx with
      | (.error e2, im) =>
        { result := .error e2, im := im, enc := some enc, calls := calls }
      | (.ok _, im) =>
        let calls := calls ++
          [{ payload := none, timestamp := timestamp, width := 0, height := 0,
             mode := "", lossless := lossless, quality := quality,
             method := 0 }]
        match assembleOutput with
        | none =>
          { result := .error (.ioError "cannot write file as WEBP (encoder returned None)"),
            im := im, enc := some enc, calls := calls }
        | some data =>
          { result := .ok data, im := im, enc := some enc, calls := calls }

/-- `_save_all(im, fp, filename)` (lines 154-253) on the animation-capable
path (`HAVE_WEBPMUX`).  Option extraction and keyframe defaults are
lines 159-181, background validation lines 183-188, encoder construction
lines 191-199, and the frame loop / restoration / sentinel / assembly is
`assembleAnimation`. -/
def _save_all (im : SrcImage) (info : EncoderInfo)
    (assembleOutput : Option (List Nat)) : SaveAllResult :=
  let lossless := if info.allow_mixed then false else info.lossless
  let kmin := match info.kmin with
    | some k => k
    | none => if lossless then 9 else 3
  let kmax := match info.kmax with
    | some k => k
    | none => if lossless then 17 else 5
  match validateBackground info.background with
  | .error e => { result := .error e, im := im, enc := none, calls := [] }
  | .ok background =>
    let enc : Encoder :=
      { width := im.width, height := im.height, background := background,
        loop := info.loop, minimize_size := info.minimize_size,
        kmin := kmin, kmax := kmax, allow_mixed := info.allow_mixed,
        verbose := false }
    assembleAnimation info.duration lossless info.quality info.method
      info.append_images enc assembleOutput im

/-- A single-frame RGB source image (1x1, pixel bytes `[1, 1, 1]`). -/
def srcRGB1 : SrcImage :=
  { hasNFramesAttr := true
    nFrames := 1
    frames := [some [1, 1, 1]]
    mode := "RGB"
    palettemode := none
    width := 1
    height := 1
    cursor := 0 }

/-- A second single-frame RGB source image (pixel bytes `[2, 2, 2]`). -/
def srcRGB2 : SrcImage := { srcRGB1 with frames := [some [2, 2, 2]] }

/-- A palette-mode (`P`) source image whose palette has an alpha channel. -/
def srcP : SrcImage :=
  { srcRGB1 with mode := "P", palettemode := some "RGBA", frames := [some [5]] }

/-- A 2-frame source whose second frame fails to load, with its cursor
parked on frame 1. -/
def srcFail : SrcImage :=
  { srcRGB1 with nFrames := 2, frames := [some [1, 1, 1], none], cursor := 1 }

/-- Encode options for the C3 scenario: one appended image, scalar
duration 100. -/
def c3info : EncoderInfo := { append_images := [srcRGB2], duration := .scalar 100 }

/-- The C3 scenario run: two 1-frame sources, `duration=100`. -/
def c3run : SaveAllResult := _save_all srcRGB1 c3info (some [9])

/-- The C1 scenario run: a palette-mode primary frame, default options. -/
def c1run : SaveAllResult := _save_all srcP {} (some [9])

end WebPPlugin

open WebPPlugin

lemma accept_iff (pfx : List Nat) :
    _accept pfx = true ↔
      (pySlice pfx 0 4 = [0x52, 0x49, 0x46, 0x46] ∧
       pySlice pfx 8 12 = [0x57, 0x45, 0x42, 0x50] ∧
       (pySlice pfx 12 16 = [0x56, 0x50, 0x38, 0x20] ∨
        pySlice pfx 12 16 = [0x56, 0x50, 0x38, 0x58] ∨
        pySlice pfx 12 16 = [0x56, 0x50, 0x38, 0x4C])) := by
  simp [_accept, _VP8_MODES_BY_IDENTIFIER, List.contains_iff_exists_mem_beq,
    and_assoc]

lemma pySlice_length (bs : List Nat) (lo hi : Nat) :
    (pySlice bs lo hi).length = min (hi - lo) (bs.length - lo) := by
  simp [pySlice]

lemma and_255_eq_mod (x : Nat) : x &&& 255 = x % 256 := by
  have h : (255 : Nat) = 2 ^ 8 - 1 := by norm_num
  rw [h, Nat.and_pow_two_sub_one_eq_mod]

lemma or_eq_add_of_lt {i b : Nat} (hb : b < 2 ^ i) (a : Nat) :
    (a * 2 ^ i) ||| b = a * 2 ^ i + b := by
  rw [Nat.mul_comm a, ← Nat.mul_add_lt_is_or hb]

lemma pack_bytes_eq (a r g b : Nat) (ha : a < 256) (hr : r < 256)
    (hg : g < 256) (hb : b < 256) :
    (a <<< 24) ||| (r <<< 16) ||| (g <<< 8) ||| (b <<< 0) =
      a * 16777216 + r * 65536 + g * 256 + b := by
  rw [Nat.shiftLeft_eq, Nat.shiftLeft_eq, Nat.shiftLeft_eq, Nat.shiftLeft_eq]
  rw [Nat.pow_zero, Nat.mul_one]
  rw [Nat.or_assoc, Nat.or_assoc]
  rw [or_eq_add_of_lt (show b < 2 ^ 8 by omega) g]
  rw [or_eq_add_of_lt (show g * 2 ^ 8 + b < 2 ^ 16 by omega) r]
  rw [or_eq_add_of_lt (show r * 2 ^ 16 + (g * 2 ^ 8 + b) < 2 ^ 24 by omega) a]
  omega

lemma seek_valid (ims : SrcImage) (k : Int) (h0 : 0 ≤ k)
    (h1 : k < (ims.nfr : Int)) :
    ims.seek k = (.ok (), { ims with cursor := k }) := by
  unfold SrcImage.seek
  rw [if_neg (by omega), if_neg (by omega)]

lemma addFramesLoop_shape (dur : DurationOpt) (lossless : Bool)
    (quality method : Int) :
    ∀ (idxs : List Nat) (ims : SrcImage) (fi : Nat) (ts : Int)
      (cs : List EncCall),
      (∃ c, (addFramesLoop dur lossless quality method idxs ims fi ts cs).2.1 =
          { ims with cursor := c }) ∧
      (∃ ncs,
        (addFramesLoop dur lossless quality method idxs ims fi ts cs).2.2.2.2 =
            cs ++ ncs ∧
          ∀ call ∈ ncs, call.payload.isSome = true) := by
  intro idxs
  induction idxs with
  | nil =>
    intro ims fi ts cs
    exact ⟨⟨ims.cursor, rfl⟩, [], by simp [addFramesLoop],
      fun c hc => absurd hc (List.not_mem_nil c)⟩
  | cons i rest ih =>
    intro ims fi ts cs
    unfold addFramesLoop
    simp only [SrcImage.seek, SrcImage.load]
    split_ifs
    · exact ⟨⟨ims.cursor, rfl⟩, [], by simp,
        fun c hc => absurd hc (List.not_mem_nil c)⟩
    · exact ⟨⟨ims.cursor, rfl⟩, [], by simp,
        fun c hc => absurd hc (List.not_mem_nil c)⟩
    · dsimp only
      split
      · rename_i e ims1 heq
        injection heq with heq1 heq2
        subst heq2
        exact ⟨⟨i, rfl⟩, [], by simp,
          fun c hc => absurd hc (List.not_mem_nil c)⟩
      · rename_i data ims1 heq
        injection heq with heq1 heq2
        subst heq2
        split
        · rename_i e hnf
          exact ⟨⟨i, rfl⟩, [], by simp,
            fun c hc => absurd hc (List.not_mem_nil c)⟩
        · rename_i frame hnf
          split
          · rename_i e hd
            refine ⟨⟨i, rfl⟩, [_], rfl, ?_⟩
            intro c hc
            simp only [List.mem_singleton] at hc
            subst hc
            rfl
          · rename_i d hd
            refine ⟨?_, ?_⟩
            · exact (ih _ _ _ _).1
            · obtain ⟨ncs, hncs, hsome⟩ :=
                (ih { ims with cursor := (i : Int) } (fi + 1) (ts + d)
                  (cs ++ [{ payload := some data, timestamp := ts,
                            width := frame.width, height := frame.height,
                            mode := frame.mode, lossless := lossless,
                            quality := quality, method := method }])).2
              refine ⟨{ payload := some data, timestamp := ts,
                        width := frame.width, height := frame.height,
                        mode := frame.mode, lossless := lossless,
                        quality := quality, method := method } :: ncs, ?_, ?_⟩
              · rw [hncs, List.append_assoc]
                rfl
              · intro c hc
                rcases List.mem_cons.mp hc with h | h
                · subst h
                  rfl
                · exact hsome c h

lemma addFrames_shape (dur : DurationOpt) (lossless : Bool)
    (quality method : Int) (ims : SrcImage) (fi : Nat) (ts : Int)
    (cs : List EncCall) :
    (∃ c, (addFrames dur lossless quality method ims fi ts cs).2.1 =
        { ims with cursor := c }) ∧
    (∃ ncs,
      (addFrames dur lossless quality method ims fi ts cs).2.2.2.2 =
          cs ++ ncs ∧
        ∀ call ∈ ncs, call.payload.isSome = true) :=
  addFramesLoop_shape dur lossless quality method (List.range ims.nfr) ims
    fi ts cs

lemma addFramesList_shape (dur : DurationOpt) (lossless : Bool)
    (quality method : Int) :
    ∀ (srcs : List SrcImage) (fi : Nat) (ts : Int) (cs : List EncCall),
      ∃ ncs,
        (addFramesList dur lossless quality method srcs fi ts cs).2.2.2 =
            cs ++ ncs ∧
          ∀ call ∈ ncs, call.payload.isSome = true := by
  intro srcs
  induction srcs with
  | nil =>
    intro fi ts cs
    exact ⟨[], by simp [addFramesList], fun c hc => absurd hc (List.not_mem_nil c)⟩
  | cons ims rest ih =>
    intro fi ts cs
    unfold addFramesList
    obtain ⟨n1, hn1, hs1⟩ :=
      (addFrames_shape dur lossless quality method ims fi ts cs).2
    rcases hA : addFrames dur lossless quality method ims fi ts cs with
      ⟨rA, imA, fiA, tsA, csA⟩
    rw [hA] at hn1
    have hcsA : csA = cs ++ n1 := hn1
    cases rA with
    | error e =>
      exact ⟨n1, by simp [hcsA], hs1⟩
    | ok u =>
      obtain ⟨n2, hn2, hs2⟩ := ih fiA tsA csA
      refine ⟨n1 ++ n2, ?_, ?_⟩
      · dsimp only
        rw [hn2, hcsA, List.append_assoc]
      · intro c hc
        rcases List.mem_append.mp hc with h | h
        · exact hs1 c h
        · exact hs2 c h

lemma validateBackground_cond (vs : List Int) :
    (vs.length != 4 ||
        !(vs.all fun v => decide (v ≥ 0) && decide (v < 256))) = false ↔
      validBackground (.rgba vs) := by
  simp [validBackground, List.all_eq_true, and_comm]

lemma validateBackground_ok {bg : BackgroundOpt} (h : validBackground bg) :
    ∃ n, validateBackground bg = .ok n := by
  cases bg with
  | notATuple => exact h.elim
  | rgba vs =>
    have hc := (validateBackground_cond vs).mpr h
    simp only [validateBackground]
    rw [if_neg (by simp [hc])]
    obtain ⟨hlen, hall⟩ := h
    rcases vs with _ | ⟨r, _ | ⟨g, _ | ⟨b, _ | ⟨a, _ | _⟩⟩⟩⟩ <;> simp at hlen
    exact ⟨_, rfl⟩

lemma validateBackground_err {bg : BackgroundOpt} (h : ¬ validBackground bg) :
    validateBackground bg =
      .error (.ioError "Background color is not an RGBA tuple clamped to (0-255)") := by
  cases bg with
  | notATuple => rfl
  | rgba vs =>
    have hc : (vs.length != 4 ||
        !(vs.all fun v => decide (v ≥ 0) && decide (v < 256))) = true := by
      cases hb : (vs.length != 4 ||
          !(vs.all fun v => decide (v ≥ 0) && decide (v < 256))) with
      | false => exact absurd ((validateBackground_cond vs).mp hb) h
      | true => rfl
    simp only [validateBackground]
    rw [if_pos (by simp [hc])]

lemma assembleAnimation_cursor (dur : DurationOpt) (lossless : Bool)
    (quality method : Int) (appends : List SrcImage) (enc : Encoder)
    (ao : Option (List Nat)) (im : SrcImage)
    (h0 : 0 ≤ im.cursor) (h1 : im.cursor < (im.nfr : Int)) :
    (assembleAnimation dur lossless quality method appends enc ao im).im.cursor
      = im.cursor := by
  unfold assembleAnimation
  obtain ⟨c, hc⟩ := (addFrames_shape dur lossless quality method im 0 0 []).1
  rcases hA : addFrames dur lossless quality method im 0 0 [] with
    ⟨rA, imA, fiA, tsA, csA⟩
  rw [hA] at hc
  have himA : imA = { im with cursor := c } := hc
  have hseek : imA.seek im.cursor = (.ok (), { imA with cursor := im.cursor }) := by
    apply seek_valid
    · exact h0
    · rw [himA]
      exact h1
  cases rA with
  | error e =>
    simp [hseek, SrcImage.tell]
  | ok u =>
    dsimp only
    rcases hL : addFramesList dur lossless quality method appends fiA tsA csA
      with ⟨rL, fiL, tsL, csL⟩
    cases rL with
    | error e => simp [hseek, SrcImage.tell]
    | ok u2 =>
      cases ao <;> simp [hseek, SrcImage.tell]

lemma assembleAnimation_enc (dur : DurationOpt) (lossless : Bool)
    (quality method : Int) (appends : List SrcImage) (enc : Encoder)
    (ao : Option (List Nat)) (im : SrcImage) :
    (assembleAnimation dur lossless quality method appends enc ao im).enc
      = some enc := by
  unfold assembleAnimation
  rcases hA : addFrames dur lossless quality method im 0 0 [] with
    ⟨rA, imA, fiA, tsA, csA⟩
  cases rA with
  | error e =>
    rcases hS : imA.seek im.tell with ⟨rs, im2⟩
    cases rs <;> simp [hS]
  | ok u =>
    dsimp only
    rcases hL : addFramesList dur lossless quality method appends fiA tsA csA
      with ⟨rL, fiL, tsL, csL⟩
    cases rL with
    | error e =>
      rcases hS : imA.seek im.tell with ⟨rs, im2⟩
      cases rs <;> simp [hS]
    | ok u2 =>
      rcases hS : imA.seek im.tell with ⟨rs, im2⟩
      cases rs with
      | error e2 => simp [hS]
      | ok u3 => cases ao <;> simp [hS]

lemma assembleAnimation_sentinel (dur : DurationOpt) (lossless : Bool)
    (quality method : Int) (appends : List SrcImage) (enc : Encoder)
    (ao : Option (List Nat)) (im : SrcImage) (data : List Nat)
    (h : (assembleAnimation dur lossless quality method appends enc ao im).result
      = .ok data) :
    ∃ pre last,
      (assembleAnimation dur lossless quality method appends enc ao im).calls
          = pre ++ [last] ∧
        last.payload = none ∧
        ∀ call ∈ pre, call.payload.isSome = true := by
  unfold assembleAnimation at h ⊢
  obtain ⟨n1, hn1, hs1⟩ := (addFrames_shape dur lossless quality method im 0 0 []).2
  rcases hA : addFrames dur lossless quality method im 0 0 [] with
    ⟨rA, imA, fiA, tsA, csA⟩
  rw [hA] at h hn1
  have hcsA : csA = [] ++ n1 := hn1
  cases rA with
  | error e =>
    dsimp only at h
    rcases hS : imA.seek im.tell with ⟨rs, im2⟩
    rw [hS] at h
    cases rs <;> simp at h
  | ok u =>
    dsimp only at h ⊢
    obtain ⟨n2, hn2, hs2⟩ :=
      addFramesList_shape dur lossless quality method appends fiA tsA csA
    rcases hL : addFramesList dur lossless quality method appends fiA tsA csA
      with ⟨rL, fiL, tsL, csL⟩
    rw [hL] at h hn2
    have hcsL : csL = csA ++ n2 := hn2
    cases rL with
    | error e =>
      dsimp only at h
      rcases hS : imA.seek im.tell with ⟨rs, im2⟩
      rw [hS] at h
      cases rs <;> simp at h
    | ok u2 =>
      dsimp only at h ⊢
      rcases hS : imA.seek im.tell with ⟨rs, im2⟩
      rw [hS] at h
      cases rs with
      | error e2 => simp at h
      | ok u3 =>
        cases ao with
        | none => simp at h
        | some d =>
          refine ⟨csL, _, rfl, rfl, ?_⟩
          intro c hc
          rw [hcsL, hcsA] at hc
          simp only [List.nil_append, List.mem_append] at hc
          rcases hc with h' | h'
          · exact hs1 c h'
          · exact hs2 c h'

/-- Claim C9: `_accept` returns true iff bytes 0..4 are `RIFF`, bytes 8..12
are `WEBP`, and bytes 12..16 are one of the three identifiers `VP8 `,
`VP8X`, `VP8L`; on every byte string shorter than 16 bytes it returns
false (and, being a total Lean function over list slicing, it never
indexes out of bounds and has no side effects). -/
theorem WebPPlugin.accept_spec :
    (∀ pfx : List Nat,
      WebPPlugin._accept pfx = true ↔
        (WebPPlugin.pySlice pfx 0 4 = [0x52, 0x49, 0x46, 0x46] ∧
         WebPPlugin.pySlice pfx 8 12 = [0x57, 0x45, 0x42, 0x50] ∧
         (WebPPlugin.pySlice pfx 12 16 = [0x56, 0x50, 0x38, 0x20] ∨
          WebPPlugin.pySlice pfx 12 16 = [0x56, 0x50, 0x38, 0x58] ∨
          WebPPlugin.pySlice pfx 12 16 = [0x56, 0x50, 0x38, 0x4C]))) ∧
    (∀ pfx : List Nat, pfx.length < 16 → WebPPlugin._accept pfx = false) := by
  constructor
  · exact accept_iff
  · intro pfx hlen
    by_contra hacc
    have h := (accept_iff pfx).mp (by
      cases h' : WebPPlugin._accept pfx
      · exact absurd h' hacc
      · rfl)
    have hl : (WebPPlugin.pySlice pfx 12 16).length < 4 := by
      rw [pySlice_length]
      omega
    rcases h.2.2 with h3 | h3 | h3 <;> rw [h3] at hl <;> simp at hl

/-- Witness for C9: a well-formed 16-byte prefix is accepted; a 1-byte
prefix is rejected. -/
theorem WebPPlugin.accept_spec_witness :
    WebPPlugin._accept
      [0x52, 0x49, 0x46, 0x46, 0, 0, 0, 0,
       0x57, 0x45, 0x42, 0x50, 0x56, 0x50, 0x38, 0x20] = true ∧
    WebPPlugin._accept [0x52] = false := by
  constructor
  · exact (WebPPlugin.accept_spec.1 _).mpr (by refine ⟨by decide, by decide, Or.inl (by decide)⟩)
  · exact WebPPlugin.accept_spec.2 [0x52] (by decide)

/-- Claim C10: for every 32-bit packed background value `v`, re-packing the
decoded `(r, g, b, a)` tuple with the encode path's packing yields `v`
again: the two channel layouts are mutually inverse. -/
theorem WebPPlugin.background_roundtrip (v : Nat) (h : v < 4294967296) :
    WebPPlugin.packBackground (WebPPlugin.decodeBackground v) = v := by
  have e1 : WebPPlugin.packBackground (WebPPlugin.decodeBackground v) =
      ((v / 16777216 % 256) <<< 24) ||| ((v / 65536 % 256) <<< 16) |||
        ((v / 256 % 256) <<< 8) ||| ((v % 256) <<< 0) := by
    simp only [WebPPlugin.packBackground, WebPPlugin.decodeBackground,
      and_255_eq_mod, Nat.shiftRight_eq_div_pow]
  rw [e1, pack_bytes_eq _ _ _ _
    (Nat.mod_lt _ (by norm_num)) (Nat.mod_lt _ (by norm_num))
    (Nat.mod_lt _ (by norm_num)) (Nat.mod_lt _ (by norm_num))]
  omega

/-- Witness for C10 at `v = 0x12345678`. -/
theorem WebPPlugin.background_roundtrip_witness :
    WebPPlugin.packBackground (WebPPlugin.decodeBackground 0x12345678) = 0x12345678 :=
  WebPPlugin.background_roundtrip 0x12345678 (by norm_num)


/-- Claim C4: every successful `_get_next` computes the duration as the
decoder's reported cumulative end-timestamp minus the stored cumulative
timestamp, stores the new cumulative timestamp, and reports the old
cumulative timestamp as the frame's start time; in particular a decoder
reporting end-timestamps `[10, 25, 40]` yields `(start, duration)` pairs
`(0,10)`, `(10,15)`, `(25,15)` for frames 0, 1, 2. -/
theorem WebPPlugin.get_next_timing :
    (∀ (s : WebPImageFile) (data : List Nat) (ts : Int),
        (s.decoder.stream[s.decoder.pos]?).join = some (data, ts) →
        (s._get_next).1 = .ok (data, s.timestamp, ts - s.timestamp) ∧
        (s._get_next).2.timestamp = ts) ∧
    (inorder0.1 = .ok ([0], 0, 10) ∧ inorder1.1 = .ok ([1], 10, 15) ∧
      inorder2.1 = .ok ([2], 25, 15)) := by
  constructor
  · intro s data ts h
    have h' : (s.decoder.stream[s.decoder.pos]?.bind fun a => a) =
        some (data, ts) := by simpa [Option.join] using h
    simp [WebPImageFile._get_next, Decoder.get_next, h', sub_sub_cancel]
  · decide

/-- Witness for C4: the general law applied to the freshly opened demo
cursor, whose first advance reports end-timestamp 10. -/
theorem WebPPlugin.get_next_timing_witness :
    ((openCursor demoStream 3)._get_next).1 = .ok ([0], 0, 10) := by
  have h := (WebPPlugin.get_next_timing.1 (openCursor demoStream 3) [0] 10
    (by decide)).1
  simpa using h

/-- Claim C5: loading frames 0, 1, 2 in order from a fresh cursor costs
exactly 3 decoder advances and 0 resets; loading frame 2 and then frame 0
costs, for the second load, exactly 1 reset and 1 further advance. -/
theorem WebPPlugin.seek_cost :
    (inorder0.1 = .ok ([0], 0, 10) ∧ inorder1.1 = .ok ([1], 10, 15) ∧
      inorder2.1 = .ok ([2], 25, 15) ∧
      inorder2.2.decoder.advances = 3 ∧ inorder2.2.decoder.resets = 0) ∧
    (backward2.1 = .ok ([2], 25, 15) ∧ backward0.1 = .ok ([0], 0, 10) ∧
      backward2.2.decoder.advances = 3 ∧ backward2.2.decoder.resets = 0 ∧
      backward0.2.decoder.advances = 4 ∧ backward0.2.decoder.resets = 1) := by
  decide

/-- Claim C6: when the decoder's advance fails, `_get_next` raises the
end-of-sequence error and leaves the cursor in the freshly reset state:
decoder rewound to position 0, `physical_frame = 0`,
`cumulative timestamp = 0`, `loaded = none` and `logical_frame = 0`. -/
theorem WebPPlugin.get_next_failure_resets :
    ∀ s : WebPImageFile,
      (s.decoder.stream[s.decoder.pos]?).join = none →
      0 < s.n_frames →
      (s._get_next).1 =
          .error (.eofError "failed to decode next frame in WebP file") ∧
        (s._get_next).2.physical_frame = 0 ∧
        (s._get_next).2.timestamp = 0 ∧
        (s._get_next).2.logical_frame = 0 ∧
        (s._get_next).2.loaded = -1 ∧
        (s._get_next).2.decoder.pos = 0 := by
  intro s h hn
  have h' : (s.decoder.stream[s.decoder.pos]?.bind fun a => a) = none := by
    simpa [Option.join] using h
  have h0 : ¬ ((0 : Int) ≥ (s.n_frames : Int)) := by
    simp only [not_le]
    exact_mod_cast hn
  simp [WebPImageFile._get_next, Decoder.get_next, h', WebPImageFile._reset,
    Decoder.reset, WebPImageFile.seek, h0]

/-- Witness for C6: a 1-frame container whose only advance fails. -/
theorem WebPPlugin.get_next_failure_resets_witness :
    ((openCursor [none] 1)._get_next).1 =
        .error (.eofError "failed to decode next frame in WebP file") ∧
      ((openCursor [none] 1)._get_next).2.physical_frame = 0 ∧
      ((openCursor [none] 1)._get_next).2.timestamp = 0 ∧
      ((openCursor [none] 1)._get_next).2.logical_frame = 0 ∧
      ((openCursor [none] 1)._get_next).2.loaded = -1 ∧
      ((openCursor [none] 1)._get_next).2.decoder.pos = 0 :=
  WebPPlugin.get_next_failure_resets (openCursor [none] 1) (by decide)
    (by decide)

/-- Claim C8: a successful `load` is idempotent: loading again without an
intervening seek returns the same pixel bytes, start timestamp and
duration, and leaves the state (decoder advance and reset counters
included) completely unchanged. -/
theorem WebPPlugin.load_idempotent :
    ∀ (s : WebPImageFile) (out : List Nat × Int × Int) (s' : WebPImageFile),
      s.load = (.ok out, s') → s'.load = (.ok out, s') := by
  intro s out s' h
  unfold WebPImageFile.load at h
  split at h
  · split at h
    · simp at h
    · split at h
      · simp at h
      · simp only [Prod.mk.injEq, Except.ok.injEq] at h
        obtain ⟨hout, hs'⟩ := h
        subst hs'
        simp [WebPImageFile.load, ← hout]
  · rename_i hl
    simp only [Prod.mk.injEq, Except.ok.injEq] at h
    obtain ⟨hout, hs'⟩ := h
    subst hs'
    push_neg at hl
    simp [WebPImageFile.load, hl, ← hout]

/-- Witness for C8: loading frame 1 of the demo cursor twice. -/
theorem WebPPlugin.load_idempotent_witness :
    ((((openCursor demoStream 3).seek 1).2.load).2).load =
      (.ok ([1], 10, 15), (((openCursor demoStream 3).seek 1).2.load).2) :=
  WebPPlugin.load_idempotent (((openCursor demoStream 3).seek 1).2)
    ([1], 10, 15) ((((openCursor demoStream 3).seek 1).2.load).2) (by decide)

theorem WebPPlugin.save_all_restores_cursor :
    ∀ (im : SrcImage) (info : EncoderInfo) (ao : Option (List Nat)),
      0 ≤ im.cursor → im.cursor < (im.nfr : Int) →
      ((_save_all im info ao).im).cursor = im.cursor := by
  intro im info ao h0 h1
  cases hv : validateBackground info.background with
  | error e => simp [_save_all, hv]
  | ok n =>
    simp only [_save_all, hv]
    exact assembleAnimation_cursor _ _ _ _ _ _ _ _ h0 h1

theorem WebPPlugin.save_all_restores_cursor_witness :
    ((_save_all srcFail {} (some [9])).im).cursor = srcFail.cursor :=
  WebPPlugin.save_all_restores_cursor srcFail {} (some [9]) (by decide) (by decide)

theorem WebPPlugin.save_all_validates_background :
    (∀ (im : SrcImage) (info : EncoderInfo) (ao : Option (List Nat)),
        ¬ validBackground info.background →
        (_save_all im info ao).result =
            .error (.ioError "Background color is not an RGBA tuple clamped to (0-255)") ∧
          (_save_all im info ao).enc = none ∧
          (_save_all im info ao).calls = []) ∧
    (∀ (im : SrcImage) (info : EncoderInfo) (ao : Option (List Nat)),
        validBackground info.background →
        (_save_all im info ao).enc.isSome = true) := by
  constructor
  · intro im info ao h
    have he := validateBackground_err h
    refine ⟨?_, ?_, ?_⟩ <;> simp [_save_all, he]
  · intro im info ao h
    obtain ⟨n, hn⟩ := validateBackground_ok h
    simp only [_save_all, hn]
    rw [assembleAnimation_enc]
    rfl

theorem WebPPlugin.save_all_validates_background_witness :
    ((_save_all srcRGB1 { background := .rgba [256, 0, 0, 0] } (some [9])).result =
        .error (.ioError "Background color is not an RGBA tuple clamped to (0-255)") ∧
      (_save_all srcRGB1 { background := .rgba [256, 0, 0, 0] } (some [9])).enc = none ∧
      (_save_all srcRGB1 { background := .rgba [256, 0, 0, 0] } (some [9])).calls = []) ∧
    (_save_all srcRGB1 {} (some [9])).enc.isSome = true := by
  constructor
  · refine WebPPlugin.save_all_validates_background.1 srcRGB1 _ (some [9]) ?_
    intro h
    have h2 := (h.2 256 (by simp)).2
    omega
  · refine WebPPlugin.save_all_validates_background.2 srcRGB1 {} (some [9]) ?_
    refine ⟨rfl, ?_⟩
    intro v hv
    simp at hv
    omega

theorem WebPPlugin.save_all_three_calls :
    (c3run.calls =
        [⟨some [1, 1, 1], 0, 1, 1, "RGB", false, 80, 0⟩,
         ⟨some [2, 2, 2], 100, 1, 1, "RGB", false, 80, 0⟩,
         ⟨none, 200, 0, 0, "", false, 80, 0⟩] ∧
      c3run.result = .ok [9]) ∧
    (∀ (im : SrcImage) (info : EncoderInfo) (ao : Option (List Nat))
        (data : List Nat),
        (_save_all im info ao).result = .ok data →
        ∃ pre last, (_save_all im info ao).calls = pre ++ [last] ∧
          last.payload = none ∧ ∀ call ∈ pre, call.payload.isSome = true) := by
  constructor
  · exact ⟨by decide, by decide⟩
  · intro im info ao data h
    cases hv : validateBackground info.background with
    | error e => simp [_save_all, hv] at h
    | ok n =>
      simp only [_save_all, hv] at h ⊢
      exact assembleAnimation_sentinel _ _ _ _ _ _ _ _ data h

theorem WebPPlugin.save_all_three_calls_witness :
    ∃ pre last, c3run.calls = pre ++ [last] ∧ last.payload = none ∧
      ∀ call ∈ pre, call.payload.isSome = true :=
  WebPPlugin.save_all_three_calls.2 srcRGB1 c3info (some [9]) [9] (by decide)

theorem WebPPlugin.save_all_nameError_on_unsupported_mode :
    c1run.result = .error (.nameError "name image is not defined") ∧
      c1run.calls = [] := by
  exact ⟨by decide, by decide⟩
